import Mathlib

/-!
Verification of the TroopInfo SOX codec (`src/cmd/troopinfo/main.go`).

The binary format is a fixed little-endian layout: an 8-byte header
(`version`, `count`, both signed 32-bit), 43 fixed-size troop records, and a
64-byte trailing blob. Bytes are modelled as natural numbers below 256, a byte
stream as a `List Nat`, and the sequential reader of the Go code as functions
that consume a prefix of the remaining list and return the parsed value
together with the tail. Signed 32-bit integers are modelled as `Int` with
explicit reduction modulo `2 ^ 32`; `float32` fields are carried as their
little-endian IEEE-754 bit patterns (naturals below `2 ^ 32`), which is
exactly the representation the byte-level codec reads and writes
(`binary.Read` / `binary.Write` convert bit patterns, never round).
-/

set_option maxRecDepth 100000

namespace Kuftc

/-- Message of the sentinel error `errInvalidSOX` in the source. -/
def errInvalidSOX : String := "not a valid SOX file"

/-- The 43 troop names of `main`; the record-decoding loop in `main` runs
`for i := range troopNames`, i.e. once per name. -/
def troopNames : List String :=
  ["Archer", "Longbows", "Infantry", "Spearman", "Heavy Infantry", "Knight",
   "Paladin", "Calvary", "Heavy Calvary", "Storm Riders", "Sappers",
   "Pyro Techs", "Bomber Wings", "Mortar", "Ballista", "Harpoon", "Catapult",
   "Battaloon", "Dark Elves Archer", "Dark Elves Calvary Archers",
   "Dark Elves Infantry", "Dark Elves Knights", "Dark Elves Calvary",
   "Orc Infantry", "Orc Riders", "Orc Heavy Riders", "Orc Axe Man",
   "Orc Heavy Infantry", "Orc Sappers", "Orc Scorpion", "Orc Swamp Mammoth",
   "Orc Dirigible", "Orc Black Wyverns", "Orc Ghouls", "Orc Bone Dragon",
   "Wall Archers (Humans)", "Scouts", "Ghoul Selfdestruct",
   "Encablossa Monster (Melee)", "Encablossa Flying Monster",
   "Encablossa Monster (Ranged)", "Wall Archers (Elves)", "Encablossa Main"]

/-- The `levelUpData` struct: `SkillID` is `int32`, `SkillPerLevel` is a
`float32` carried as its 32-bit IEEE-754 pattern. -/
structure levelUpData where
  SkillID : Int
  SkillPerLevel : Nat
deriving DecidableEq

/-- The `troopInfo` struct, field for field in source order. `int32` fields
(`Job`, `TypeID`, `FormationRandom`, `DefaultUnitNumX`, `DefaultUnitNumY`)
are `Int`; every `float32` field is its 32-bit pattern as `Nat`. The Go field
`LevelUpData [3]levelUpData` is a triple. -/
structure troopInfo where
  Job : Int
  TypeID : Int
  MoveSpeed : Nat
  RotateRate : Nat
  MoveAcceleration : Nat
  MoveDeceleration : Nat
  SightRange : Nat
  AttackRangeMax : Nat
  AttackRangeMin : Nat
  AttackFrontRange : Nat
  DirectAttack : Nat
  IndirectAttack : Nat
  Defense : Nat
  BaseWidth : Nat
  ResistMelee : Nat
  ResistRanged : Nat
  ResistFrontal : Nat
  ResistExplosion : Nat
  ResistFire : Nat
  ResistIce : Nat
  ResistLightning : Nat
  ResistHoly : Nat
  ResistCurse : Nat
  ResistPoison : Nat
  MaxUnitSpeedMultiplier : Nat
  DefaultUnitHP : Nat
  FormationRandom : Int
  DefaultUnitNumX : Int
  DefaultUnitNumY : Int
  UnitHPLevUp : Nat
  LevelUpData : levelUpData × levelUpData × levelUpData
  DamageDistribution : Nat
deriving DecidableEq

/-- The `troopInfoSOX` struct: header, the 43 records (`[43]troopInfo`,
modelled as a list that is length 43 for every container this development
builds), and the 64-byte trailing array `TheEnd` (`[64]byte`, modelled as a
list of bytes padded or truncated to 64 on encoding). -/
structure troopInfoSOX where
  Version : Int
  Count : Int
  TroopInfos : List troopInfo
  TheEnd : List Nat
deriving DecidableEq

/-- Zero-pad a chunk of at most 4 bytes to exactly 4 bytes: `readBytes` in the
source hands `file.Read` a zeroed 4-byte buffer, so the bytes past the end of
the stream stay zero. -/
def pad4 : List Nat → List Nat
  | [] => [0, 0, 0, 0]
  | [a] => [a, 0, 0, 0]
  | [a, b] => [a, b, 0, 0]
  | [a, b, c] => [a, b, c, 0]
  | a :: b :: c :: d :: _ => [a, b, c, d]

/-- Little-endian 32-bit value of (the first 4 bytes of) a byte list, as
assembled by `binary.Read(..., binary.LittleEndian, ...)`. -/
def leUint32 (data : List Nat) : Nat :=
  data.getD 0 0 + 256 * data.getD 1 0 + 65536 * data.getD 2 0 +
    16777216 * data.getD 3 0

/-- Reinterpret an unsigned 32-bit value as a signed `int32`. -/
def toInt32 (u : Nat) : Int :=
  if u < 2147483648 then (u : Int) else (u : Int) - 4294967296

/-- Model of `int32FromBytes`: decode 4 little-endian bytes as a signed 32-bit
integer. -/
def int32FromBytes (data : List Nat) : Int :=
  toInt32 (leUint32 data)

/-- Model of `float32FromBytes`: decode 4 little-endian bytes as a `float32`, kept as
its 32-bit pattern (Go's `binary.Read` builds the pattern and calls
`math.Float32frombits`, a bijection on patterns). -/
def float32FromBytes (data : List Nat) : Nat :=
  leUint32 data

/-- Model of `readBytes`: read up to 4 bytes from the stream into a zeroed 4-byte
buffer, tolerating `io.EOF` (short or empty reads leave zero bytes). Returns
the 4-byte buffer and the rest of the stream. -/
def readBytes (rem : List Nat) : List Nat × List Nat :=
  (pad4 (rem.take 4), rem.drop 4)

/-- Model of `readInt32`: `int32FromBytes` of the next `readBytes` buffer. -/
def readInt32 (rem : List Nat) : Int × List Nat :=
  (int32FromBytes (readBytes rem).1, (readBytes rem).2)

/-- Model of `readFloat32`: `float32FromBytes` of the next `readBytes` buffer. -/
def readFloat32 (rem : List Nat) : Nat × List Nat :=
  (float32FromBytes (readBytes rem).1, (readBytes rem).2)

/-- Model of `validSOX`: the header check `version == 100 && count == 43`. -/
def validSOX (version count : Int) : Bool :=
  if version != 100 || count != 43 then false else true

/-- One iteration block of `main`'s decoding loop: the `troopInfo` composite
literal, whose `readInt32` / `readFloat32` calls run in field order. Returns
the record and the remaining stream. -/
def decodeTroopInfo (rem : List Nat) : troopInfo × List Nat :=
  let job := readInt32 rem
  let typeID := readInt32 job.2
  let moveSpeed := readFloat32 typeID.2
  let rotateRate := readFloat32 moveSpeed.2
  let moveAcceleration := readFloat32 rotateRate.2
  let moveDeceleration := readFloat32 moveAcceleration.2
  let sightRange := readFloat32 moveDeceleration.2
  let attackRangeMax := readFloat32 sightRange.2
  let attackRangeMin := readFloat32 attackRangeMax.2
  let attackFrontRange := readFloat32 attackRangeMin.2
  let directAttack := readFloat32 attackFrontRange.2
  let indirectAttack := readFloat32 directAttack.2
  let defense := readFloat32 indirectAttack.2
  let baseWidth := readFloat32 defense.2
  let resistMelee := readFloat32 baseWidth.2
  let resistRanged := readFloat32 resistMelee.2
  let resistFrontal := readFloat32 resistRanged.2
  let resistExplosion := readFloat32 resistFrontal.2
  let resistFire := readFloat32 resistExplosion.2
  let resistIce := readFloat32 resistFire.2
  let resistLightning := readFloat32 resistIce.2
  let resistHoly := readFloat32 resistLightning.2
  let resistCurse := readFloat32 resistHoly.2
  let resistPoison := readFloat32 resistCurse.2
  let maxUnitSpeedMultiplier := readFloat32 resistPoison.2
  let defaultUnitHP := readFloat32 maxUnitSpeedMultiplier.2
  let formationRandom := readInt32 defaultUnitHP.2
  let defaultUnitNumX := readInt32 formationRandom.2
  let defaultUnitNumY := readInt32 defaultUnitNumX.2
  let unitHPLevUp := readFloat32 defaultUnitNumY.2
  let lu1i := readInt32 unitHPLevUp.2
  let lu1f := readFloat32 lu1i.2
  let lu2i := readInt32 lu1f.2
  let lu2f := readFloat32 lu2i.2
  let lu3i := readInt32 lu2f.2
  let lu3f := readFloat32 lu3i.2
  let damageDistribution := readFloat32 lu3f.2
  ({ Job := job.1
     TypeID := typeID.1
     MoveSpeed := moveSpeed.1
     RotateRate := rotateRate.1
     MoveAcceleration := moveAcceleration.1
     MoveDeceleration := moveDeceleration.1
     SightRange := sightRange.1
     AttackRangeMax := attackRangeMax.1
     AttackRangeMin := attackRangeMin.1
     AttackFrontRange := attackFrontRange.1
     DirectAttack := directAttack.1
     IndirectAttack := indirectAttack.1
     Defense := defense.1
     BaseWidth := baseWidth.1
     ResistMelee := resistMelee.1
     ResistRanged := resistRanged.1
     ResistFrontal := resistFrontal.1
     ResistExplosion := resistExplosion.1
     ResistFire := resistFire.1
     ResistIce := resistIce.1
     ResistLightning := resistLightning.1
     ResistHoly := resistHoly.1
     ResistCurse := resistCurse.1
     ResistPoison := resistPoison.1
     MaxUnitSpeedMultiplier := maxUnitSpeedMultiplier.1
     DefaultUnitHP := defaultUnitHP.1
     FormationRandom := formationRandom.1
     DefaultUnitNumX := defaultUnitNumX.1
     DefaultUnitNumY := defaultUnitNumY.1
     UnitHPLevUp := unitHPLevUp.1
     LevelUpData :=
       (⟨lu1i.1, lu1f.1⟩, ⟨lu2i.1, lu2f.1⟩, ⟨lu3i.1, lu3f.1⟩)
     DamageDistribution := damageDistribution.1 }, damageDistribution.2)

/-- Run `decodeTroopInfo` for `n` record slots in sequence (the
`for i := range troopNames` loop), threading the remaining stream. -/
def decodeRecords : Nat → List Nat → List troopInfo × List Nat
  | 0, rem => ([], rem)
  | n + 1, rem =>
      let t := decodeTroopInfo rem
      let rest := decodeRecords n t.2
      (t.1 :: rest.1, rest.2)

/-- The read-the-rest loop of `main` (lines 234-255): it reads 4 bytes at a
time until `io.EOF`, but each iteration passes a nil `[]byte` (`chars`) to
`binary.Read`, which decodes zero bytes into a zero-length slice, so
`buf.Write(chars)` appends nothing and the accumulator never grows. Each
iteration consumes up to 4 bytes of the stream. -/
def readRest : List Nat → List Nat → List Nat
  | [], acc => acc
  | [_], acc => acc ++ ([] : List Nat)
  | [_, _], acc => acc ++ ([] : List Nat)
  | [_, _, _], acc => acc ++ ([] : List Nat)
  | _ :: _ :: _ :: _ :: rest, acc => readRest rest (acc ++ ([] : List Nat))

/-- Model of zerolog's `log.Fatal().Err(e)` chain as written throughout
`main.go`: the chain never calls `Msg` or `Send`, so the event is never
sent — nothing is logged and the `os.Exit(1)` hook inside `Msg`/`Send`
never runs. The statement is a no-op and execution continues. (The only
chains in the file that do call `.Msg` are in `int32FromBytes` and
`float32FromBytes`, whose 4-byte reads cannot fail.) -/
def logFatalErr (_e : String) : Unit := ()

/-- The decode phase of `main` (lines 154-257): read the header and run the
`validSOX` check — whose failure branch only builds a `log.Fatal` event
that, lacking `Msg`/`Send`, neither logs nor exits — then decode one record
per troop name regardless, run the read-the-rest loop, and copy the
accumulated bytes into the zeroed 64-byte `TheEnd` array (`copy` fills at
most `min 64 (length)` bytes, the rest stay zero). There is no failure
path: decoding always produces a container. -/
def decode (input : List Nat) : troopInfoSOX :=
  let version := readInt32 input
  let count := readInt32 version.2
  let _fatal := if !validSOX version.1 count.1 then logFatalErr errInvalidSOX else ()
  let records := decodeRecords troopNames.length count.2
  let rest := readRest records.2 []
  { Version := version.1
    Count := count.1
    TroopInfos := records.1
    TheEnd := rest.take 64 ++ List.replicate (64 - rest.length) 0 }

/-- Little-endian bytes of an unsigned 32-bit value, as laid down by
`binary.Write(..., binary.LittleEndian, ...)`. -/
def uint32ToBytes (u : Nat) : List Nat :=
  [u % 256, u / 256 % 256, u / 65536 % 256, u / 16777216 % 256]

/-- Encode a signed 32-bit integer as its 4 little-endian bytes. -/
def int32ToBytes (i : Int) : List Nat :=
  uint32ToBytes (i.emod 4294967296).toNat

/-- Encode a `float32` bit pattern as its 4 little-endian bytes
(`math.Float32bits` then little-endian write). -/
def float32ToBytes (p : Nat) : List Nat :=
  uint32ToBytes p

/-- Bytes `binary.Write` emits for one `levelUpData` value. -/
def encodeLevelUpData (l : levelUpData) : List Nat :=
  int32ToBytes l.SkillID ++ float32ToBytes l.SkillPerLevel

/-- Bytes `binary.Write` emits for one `troopInfo` record: every field in
declaration order, 4 bytes each, no padding. -/
def encodeTroopInfo (ti : troopInfo) : List Nat :=
  int32ToBytes ti.Job ++
    int32ToBytes ti.TypeID ++
    float32ToBytes ti.MoveSpeed ++
    float32ToBytes ti.RotateRate ++
    float32ToBytes ti.MoveAcceleration ++
    float32ToBytes ti.MoveDeceleration ++
    float32ToBytes ti.SightRange ++
    float32ToBytes ti.AttackRangeMax ++
    float32ToBytes ti.AttackRangeMin ++
    float32ToBytes ti.AttackFrontRange ++
    float32ToBytes ti.DirectAttack ++
    float32ToBytes ti.IndirectAttack ++
    float32ToBytes ti.Defense ++
    float32ToBytes ti.BaseWidth ++
    float32ToBytes ti.ResistMelee ++
    float32ToBytes ti.ResistRanged ++
    float32ToBytes ti.ResistFrontal ++
    float32ToBytes ti.ResistExplosion ++
    float32ToBytes ti.ResistFire ++
    float32ToBytes ti.ResistIce ++
    float32ToBytes ti.ResistLightning ++
    float32ToBytes ti.ResistHoly ++
    float32ToBytes ti.ResistCurse ++
    float32ToBytes ti.ResistPoison ++
    float32ToBytes ti.MaxUnitSpeedMultiplier ++
    float32ToBytes ti.DefaultUnitHP ++
    int32ToBytes ti.FormationRandom ++
    int32ToBytes ti.DefaultUnitNumX ++
    int32ToBytes ti.DefaultUnitNumY ++
    float32ToBytes ti.UnitHPLevUp ++
    encodeLevelUpData ti.LevelUpData.1 ++
    encodeLevelUpData ti.LevelUpData.2.1 ++
    encodeLevelUpData ti.LevelUpData.2.2 ++
    float32ToBytes ti.DamageDistribution

/-- Serialization by `binary.Write(buf, binary.LittleEndian, &tis)`: header, the record array
in order, then the `[64]byte` trailing array (padded or truncated to its
fixed 64-byte width). -/
def encode (sox : troopInfoSOX) : List Nat :=
  int32ToBytes sox.Version ++
    (int32ToBytes sox.Count ++
    ((sox.TroopInfos.map encodeTroopInfo).flatten ++
    (sox.TheEnd.take 64 ++ List.replicate (64 - sox.TheEnd.length) 0)))

/-- The zero value of `levelUpData`. -/
def zeroLevelUpData : levelUpData :=
  { SkillID := 0, SkillPerLevel := 0 }

/-- The zero value of `troopInfo` (every field zero, as in `troopInfo{}`). -/
def zeroTroopInfo : troopInfo :=
  { Job := 0
    TypeID := 0
    MoveSpeed := 0
    RotateRate := 0
    MoveAcceleration := 0
    MoveDeceleration := 0
    SightRange := 0
    AttackRangeMax := 0
    AttackRangeMin := 0
    AttackFrontRange := 0
    DirectAttack := 0
    IndirectAttack := 0
    Defense := 0
    BaseWidth := 0
    ResistMelee := 0
    ResistRanged := 0
    ResistFrontal := 0
    ResistExplosion := 0
    ResistFire := 0
    ResistIce := 0
    ResistLightning := 0
    ResistHoly := 0
    ResistCurse := 0
    ResistPoison := 0
    MaxUnitSpeedMultiplier := 0
    DefaultUnitHP := 0
    FormationRandom := 0
    DefaultUnitNumX := 0
    DefaultUnitNumY := 0
    UnitHPLevUp := 0
    LevelUpData := (zeroLevelUpData, zeroLevelUpData, zeroLevelUpData)
    DamageDistribution := 0 }

/-- The container with valid header, all 43 records zero, and a zero trailing
blob. -/
def zeroSOX : troopInfoSOX :=
  { Version := 100
    Count := 43
    TroopInfos := List.replicate 43 zeroTroopInfo
    TheEnd := List.replicate 64 0 }

/-- A full-size (6436-byte) binary input: valid header, all record and
trailing bytes zero. -/
def zeroBinary : List Nat :=
  [100, 0, 0, 0, 43, 0, 0, 0] ++ List.replicate 6428 0

/-- A full-size (6436-byte) binary input with valid header whose final
trailing-blob byte is 1 instead of 0. -/
def badInput : List Nat :=
  [100, 0, 0, 0, 43, 0, 0, 0] ++ (List.replicate 6427 0 ++ [1])

/-- A truncated input: just the 8 valid header bytes, nothing after. -/
def header8 : List Nat :=
  [100, 0, 0, 0, 43, 0, 0, 0]

/-- A parsed text (YAML) document, modelled at value level: the root mapping
with optional keys `version`, `count` and `troop_infos` (`TheEnd` is tagged
`yaml:"-"` and never appears). A key absent from the document leaves the
corresponding field of the zero-valued target struct untouched, which is the
`yaml.Unmarshal` default-to-zero behaviour the spec describes. Record values
are carried as whole `troopInfo` values at parsed-value level: integer
scalars and non-NaN float patterns survive the YAML layer exactly (shortest
round-trip decimals); a NaN float appears in text as `.nan`, which can only
parse back as the canonical quiet NaN. -/
structure TextDoc where
  version : Option Int
  count : Option Int
  troopInfos : Option (List troopInfo)
deriving DecidableEq

/-- NaN test on a float32 bit pattern: exponent bits all ones and a nonzero
mantissa. -/
def isNaN32 (p : Nat) : Bool :=
  (p / 8388608) % 256 == 255 && p % 8388608 != 0

/-- The canonical quiet float32 NaN pattern (0x7FC00000): yaml writes every
NaN as `.nan`, the parser resolves `.nan` to the float64 NaN, and Go's
float64-to-float32 conversion of it yields this pattern — all payload bits
are lost. -/
def canonicalNaN32 : Nat := 2143289344

/-- The yaml text layer on one float32 pattern: finite and infinite values
survive exactly (shortest round-trip decimals, `.inf`), every NaN collapses
to the canonical quiet NaN. -/
def yamlFloat32 (p : Nat) : Nat :=
  if isNaN32 p then canonicalNaN32 else p

/-- The yaml text layer on one `levelUpData`: the integer survives, the
float goes through `yamlFloat32`. -/
def yamlLevelUpData (l : levelUpData) : levelUpData :=
  { SkillID := l.SkillID, SkillPerLevel := yamlFloat32 l.SkillPerLevel }

/-- The yaml text layer on one record: integer fields survive exactly, every
float field goes through `yamlFloat32`. -/
def yamlTroopInfo (ti : troopInfo) : troopInfo :=
  { Job := ti.Job
    TypeID := ti.TypeID
    MoveSpeed := yamlFloat32 ti.MoveSpeed
    RotateRate := yamlFloat32 ti.RotateRate
    MoveAcceleration := yamlFloat32 ti.MoveAcceleration
    MoveDeceleration := yamlFloat32 ti.MoveDeceleration
    SightRange := yamlFloat32 ti.SightRange
    AttackRangeMax := yamlFloat32 ti.AttackRangeMax
    AttackRangeMin := yamlFloat32 ti.AttackRangeMin
    AttackFrontRange := yamlFloat32 ti.AttackFrontRange
    DirectAttack := yamlFloat32 ti.DirectAttack
    IndirectAttack := yamlFloat32 ti.IndirectAttack
    Defense := yamlFloat32 ti.Defense
    BaseWidth := yamlFloat32 ti.BaseWidth
    ResistMelee := yamlFloat32 ti.ResistMelee
    ResistRanged := yamlFloat32 ti.ResistRanged
    ResistFrontal := yamlFloat32 ti.ResistFrontal
    ResistExplosion := yamlFloat32 ti.ResistExplosion
    ResistFire := yamlFloat32 ti.ResistFire
    ResistIce := yamlFloat32 ti.ResistIce
    ResistLightning := yamlFloat32 ti.ResistLightning
    ResistHoly := yamlFloat32 ti.ResistHoly
    ResistCurse := yamlFloat32 ti.ResistCurse
    ResistPoison := yamlFloat32 ti.ResistPoison
    MaxUnitSpeedMultiplier := yamlFloat32 ti.MaxUnitSpeedMultiplier
    DefaultUnitHP := yamlFloat32 ti.DefaultUnitHP
    FormationRandom := ti.FormationRandom
    DefaultUnitNumX := ti.DefaultUnitNumX
    DefaultUnitNumY := ti.DefaultUnitNumY
    UnitHPLevUp := yamlFloat32 ti.UnitHPLevUp
    LevelUpData :=
      (yamlLevelUpData ti.LevelUpData.1, yamlLevelUpData ti.LevelUpData.2.1,
        yamlLevelUpData ti.LevelUpData.2.2)
    DamageDistribution := yamlFloat32 ti.DamageDistribution }

/-- Model of `yaml.Marshal` of a container (the `update` mode) at
parsed-value level: every struct field is emitted under its tag, so the
document carries the full header and all records; `TheEnd` is skipped
(`yaml:"-"`). Numeric emission is value-preserving except NaN floats, which
are all written as `.nan`, so the document retains only their canonical
parse. -/
def toText (sox : troopInfoSOX) : TextDoc :=
  { version := some sox.Version
    count := some sox.Count
    troopInfos := some (sox.TroopInfos.map yamlTroopInfo) }

/-- Model of `yaml.Unmarshal` of a parsed document into the zero-valued
`troopInfoSOX{}` that `main` passes to `binaryData` in `diff` and `write`
modes: present keys overwrite, absent keys keep the zero value; `TheEnd` is
never set (`yaml:"-"`). Decoding a `troop_infos` sequence into the
`[43]troopInfo` array fails when the lengths differ, and every NaN float
scalar comes back as the canonical quiet NaN. -/
def fromText (d : TextDoc) : Except String troopInfoSOX :=
  match d.troopInfos with
  | none =>
      Except.ok
        { Version := d.version.getD 0
          Count := d.count.getD 0
          TroopInfos := List.replicate 43 zeroTroopInfo
          TheEnd := List.replicate 64 0 }
  | some l =>
      if l.length = 43 then
        Except.ok
          { Version := d.version.getD 0
            Count := d.count.getD 0
            TroopInfos := l.map yamlTroopInfo
            TheEnd := List.replicate 64 0 }
      else
        Except.error "yaml: unmarshal errors"

/-- Model of `binaryData`: read the text file, `yaml.Unmarshal` it, and
serialize the container with `binary.Write`. Mirrors the source's
`return buf.Bytes(), err` pairs: on a read or unmarshal failure the buffer
is still empty, so the partial result handed back with the error is the
empty byte slice. No header validation is performed. -/
def binaryData (textRead : Except String TextDoc) : List Nat × Option String :=
  match textRead with
  | Except.error e => ([], some e)
  | Except.ok d =>
      match fromText d with
      | Except.error e => ([], some e)
      | Except.ok sox => (encode sox, none)

/-- The `write` mode tail of `main` (lines 321-336): call `binaryData`; the
`log.Fatal().Err(err)` that follows lacks `Msg`/`Send`, so it neither logs
nor exits, and `ioutil.WriteFile` always runs — the returned bytes are what
gets written over the SOX file, the empty partial buffer when the text read
or parse failed. (The outcome of `WriteFile` itself is not modelled.) -/
def writeMode (textRead : Except String TextDoc) : List Nat :=
  let r := binaryData textRead
  let _fatal :=
    match r.2 with
    | some e => logFatalErr e
    | none => ()
  r.1

/-- A scalar-equivalent emitted value: a signed integer or a float (as its
bit pattern). -/
inductive Scalar where
  | i : Int → Scalar
  | f : Nat → Scalar
deriving DecidableEq

/-- The labeled scalar values one `levelUpData` contributes to the text form
(keys from the yaml tags). -/
def levelUpLabeledValues (l : levelUpData) : List (String × Scalar) :=
  [("skill_id", Scalar.i l.SkillID), ("skill_per_level", Scalar.f l.SkillPerLevel)]

/-- The labeled scalar values one record contributes to the text form, in
struct order, with the three `level_up_data` entries flattened to their two
keys each. -/
def troopInfoLabeledValues (ti : troopInfo) : List (String × Scalar) :=
  [("job", Scalar.i ti.Job),
   ("type_id", Scalar.i ti.TypeID),
   ("move_speed", Scalar.f ti.MoveSpeed),
   ("rotate_rate", Scalar.f ti.RotateRate),
   ("move_acceleration", Scalar.f ti.MoveAcceleration),
   ("move_deceleration", Scalar.f ti.MoveDeceleration),
   ("sight_range", Scalar.f ti.SightRange),
   ("attack_range_max", Scalar.f ti.AttackRangeMax),
   ("attack_range_min", Scalar.f ti.AttackRangeMin),
   ("attack_front_range", Scalar.f ti.AttackFrontRange),
   ("direct_attack", Scalar.f ti.DirectAttack),
   ("indirect_attack", Scalar.f ti.IndirectAttack),
   ("defense", Scalar.f ti.Defense),
   ("base_width", Scalar.f ti.BaseWidth),
   ("resist_melee", Scalar.f ti.ResistMelee),
   ("resist_ranged", Scalar.f ti.ResistRanged),
   ("resist_frontal", Scalar.f ti.ResistFrontal),
   ("resist_explosion", Scalar.f ti.ResistExplosion),
   ("resist_fire", Scalar.f ti.ResistFire),
   ("resist_ice", Scalar.f ti.ResistIce),
   ("resist_lightning", Scalar.f ti.ResistLightning),
   ("resist_holy", Scalar.f ti.ResistHoly),
   ("resist_curse", Scalar.f ti.ResistCurse),
   ("resist_poison", Scalar.f ti.ResistPoison),
   ("max_unit_speed_multiplier", Scalar.f ti.MaxUnitSpeedMultiplier),
   ("default_unit_hp", Scalar.f ti.DefaultUnitHP),
   ("formation_random", Scalar.i ti.FormationRandom),
   ("default_unit_num_x", Scalar.i ti.DefaultUnitNumX),
   ("default_unit_num_y", Scalar.i ti.DefaultUnitNumY),
   ("unit_hp_lev_up", Scalar.f ti.UnitHPLevUp)] ++
    levelUpLabeledValues ti.LevelUpData.1 ++
    levelUpLabeledValues ti.LevelUpData.2.1 ++
    levelUpLabeledValues ti.LevelUpData.2.2 ++
    [("damage_distribution", Scalar.f ti.DamageDistribution)]

/-- All labeled scalar values of the emitted text document: the header keys
followed by every record's labeled values. -/
def toTextLabeledValues (sox : troopInfoSOX) : List (String × Scalar) :=
  ("version", Scalar.i sox.Version) :: ("count", Scalar.i sox.Count) ::
    (sox.TroopInfos.map troopInfoLabeledValues).flatten

/-- The fixed per-record label sequence (what any record's labeled values
project to). -/
def troopInfoLabels : List String :=
  (troopInfoLabeledValues zeroTroopInfo).map Prod.fst

/-- Scalar field kind in the binary layout: 4-byte signed integer or 4-byte
IEEE-754 float. -/
inductive FieldType where
  | i32 : FieldType
  | f32 : FieldType
deriving DecidableEq

/-- Layout of one `levelUpData` sub-record, transcribed from the struct. -/
def levelUpDataLayout : List (String × FieldType) :=
  [("skill_id", FieldType.i32), ("skill_per_level", FieldType.f32)]

/-- The leading scalar fields of `troopInfo`, in declaration order, with
their kinds, transcribed field for field from the struct (everything before
`LevelUpData`). -/
def troopInfoScalarLayout : List (String × FieldType) :=
  [("job", FieldType.i32),
   ("type_id", FieldType.i32),
   ("move_speed", FieldType.f32),
   ("rotate_rate", FieldType.f32),
   ("move_acceleration", FieldType.f32),
   ("move_deceleration", FieldType.f32),
   ("sight_range", FieldType.f32),
   ("attack_range_max", FieldType.f32),
   ("attack_range_min", FieldType.f32),
   ("attack_front_range", FieldType.f32),
   ("direct_attack", FieldType.f32),
   ("indirect_attack", FieldType.f32),
   ("defense", FieldType.f32),
   ("base_width", FieldType.f32),
   ("resist_melee", FieldType.f32),
   ("resist_ranged", FieldType.f32),
   ("resist_frontal", FieldType.f32),
   ("resist_explosion", FieldType.f32),
   ("resist_fire", FieldType.f32),
   ("resist_ice", FieldType.f32),
   ("resist_lightning", FieldType.f32),
   ("resist_holy", FieldType.f32),
   ("resist_curse", FieldType.f32),
   ("resist_poison", FieldType.f32),
   ("max_unit_speed_multiplier", FieldType.f32),
   ("default_unit_hp", FieldType.f32),
   ("formation_random", FieldType.i32),
   ("default_unit_num_x", FieldType.i32),
   ("default_unit_num_y", FieldType.i32),
   ("unit_hp_lev_up", FieldType.f32)]

/-- The full per-record layout: the scalar fields, then the 3 `levelUpData`
sub-records, then the trailing `damage_distribution` float. -/
def troopInfoLayout : List (String × FieldType) :=
  troopInfoScalarLayout ++
    levelUpDataLayout ++ levelUpDataLayout ++ levelUpDataLayout ++
    [("damage_distribution", FieldType.f32)]

/-- A full-size (6436-byte) all-zero input: its header int32s are 0 and 0,
failing the `validSOX` check. -/
def invalidBinary : List Nat := List.replicate 6436 0

/-- A record whose `MoveSpeed` float carries a NaN pattern with a payload
bit set (0x7FC00001). -/
def nanTroopInfo : troopInfo := { zeroTroopInfo with MoveSpeed := 2143289345 }

/-- A container with valid header, zero trailing blob, and one NaN-payload
float field in its first record. -/
def nanSOX : troopInfoSOX :=
  { Version := 100
    Count := 43
    TroopInfos := nanTroopInfo :: List.replicate 42 zeroTroopInfo
    TheEnd := List.replicate 64 0 }

/-- A parsed document whose `troop_infos` sequence has the wrong length
(empty), which the unmarshal step rejects against the `[43]troopInfo`
array. -/
def badLengthDoc : TextDoc :=
  { version := none, count := none, troopInfos := some [] }

/-- A parsed document supplying a version the decoder's header check would
reject, and no count or records. -/
def versionFiveDoc : TextDoc :=
  { version := some 5, count := none, troopInfos := none }

/-- No float field of the record carries a NaN bit pattern. -/
abbrev troopInfoNoNaN (ti : troopInfo) : Prop :=
  isNaN32 ti.MoveSpeed = false ∧
  isNaN32 ti.RotateRate = false ∧
  isNaN32 ti.MoveAcceleration = false ∧
  isNaN32 ti.MoveDeceleration = false ∧
  isNaN32 ti.SightRange = false ∧
  isNaN32 ti.AttackRangeMax = false ∧
  isNaN32 ti.AttackRangeMin = false ∧
  isNaN32 ti.AttackFrontRange = false ∧
  isNaN32 ti.DirectAttack = false ∧
  isNaN32 ti.IndirectAttack = false ∧
  isNaN32 ti.Defense = false ∧
  isNaN32 ti.BaseWidth = false ∧
  isNaN32 ti.ResistMelee = false ∧
  isNaN32 ti.ResistRanged = false ∧
  isNaN32 ti.ResistFrontal = false ∧
  isNaN32 ti.ResistExplosion = false ∧
  isNaN32 ti.ResistFire = false ∧
  isNaN32 ti.ResistIce = false ∧
  isNaN32 ti.ResistLightning = false ∧
  isNaN32 ti.ResistHoly = false ∧
  isNaN32 ti.ResistCurse = false ∧
  isNaN32 ti.ResistPoison = false ∧
  isNaN32 ti.MaxUnitSpeedMultiplier = false ∧
  isNaN32 ti.DefaultUnitHP = false ∧
  isNaN32 ti.UnitHPLevUp = false ∧
  isNaN32 ti.LevelUpData.1.SkillPerLevel = false ∧
  isNaN32 ti.LevelUpData.2.1.SkillPerLevel = false ∧
  isNaN32 ti.LevelUpData.2.2.SkillPerLevel = false ∧
  isNaN32 ti.DamageDistribution = false


/-!
Helper lemmas shared by the claim theorems.
-/

/-- Zero-padding a 4-byte-bounded chunk never changes its little-endian
value: the padded positions read as the same zeros `getD` defaults to. -/
theorem leUint32_pad4_take : ∀ l : List Nat, leUint32 (pad4 (l.take 4)) = leUint32 l
  | [] => rfl
  | [_] => rfl
  | [_, _] => rfl
  | [_, _, _] => rfl
  | _ :: _ :: _ :: _ :: _ => rfl

/-- Truncating to the first 4 bytes never changes the little-endian value. -/
theorem leUint32_take : ∀ l : List Nat, leUint32 (l.take 4) = leUint32 l
  | [] => rfl
  | [_] => rfl
  | [_, _] => rfl
  | [_, _, _] => rfl
  | _ :: _ :: _ :: _ :: _ => rfl

/-- Padding commutes away under `int32FromBytes`. -/
theorem int32FromBytes_pad4_take (l : List Nat) :
    int32FromBytes (pad4 (l.take 4)) = int32FromBytes (l.take 4) := by
  unfold int32FromBytes
  rw [leUint32_pad4_take, leUint32_take]

/-- The read-the-rest loop returns its accumulator unchanged: every
iteration appends the empty `chars` slice. -/
theorem readRest_eq (rem : List Nat) : ∀ acc : List Nat, readRest rem acc = acc := by
  suffices h : ∀ n rem acc, List.length rem ≤ n → readRest rem acc = acc from
    fun acc => h rem.length rem acc le_rfl
  intro n
  induction n with
  | zero =>
      intro rem acc h
      cases rem with
      | nil => rfl
      | cons a t => simp at h
  | succ k ih =>
      intro rem acc h
      match rem with
      | [] => rfl
      | [_] => exact List.append_nil acc
      | [_, _] => exact List.append_nil acc
      | [_, _, _] => exact List.append_nil acc
      | _ :: _ :: _ :: _ :: rest =>
          show readRest rest (acc ++ []) = acc
          rw [List.append_nil]
          refine ih rest acc ?_
          simp [List.length_cons] at h
          omega

/-- The decoded version is the little-endian int32 of the zero-padded first
4 bytes; decoding cannot fail on it. -/
theorem decode_Version (b : List Nat) : (decode b).Version = int32FromBytes (b.take 4) :=
  int32FromBytes_pad4_take b

/-- The decoded count is the little-endian int32 of the zero-padded next 4
bytes. -/
theorem decode_Count (b : List Nat) :
    (decode b).Count = int32FromBytes ((b.drop 4).take 4) :=
  int32FromBytes_pad4_take (b.drop 4)

/-- Every decode leaves the trailing array at its 64 zero bytes (the
read-the-rest loop accumulates nothing). -/
theorem decode_TheEnd (b : List Nat) : (decode b).TheEnd = List.replicate 64 0 := by
  show (readRest (decodeRecords troopNames.length ((b.drop 4).drop 4)).2 []).take 64 ++
      List.replicate
        (64 - (readRest (decodeRecords troopNames.length ((b.drop 4).drop 4)).2 []).length) 0 =
    List.replicate 64 0
  rw [readRest_eq]
  rfl

/-- Decoding fills exactly `n` record slots. -/
theorem decodeRecords_length (n : Nat) : ∀ rem : List Nat, (decodeRecords n rem).1.length = n := by
  induction n with
  | zero => intro rem; rfl
  | succ k ih => intro rem; simp [decodeRecords, ih]

/-- Every decoded container carries exactly 43 records. -/
theorem decode_records_count (b : List Nat) : (decode b).TroopInfos.length = 43 := by
  show (decodeRecords troopNames.length ((b.drop 4).drop 4)).1.length = 43
  rw [decodeRecords_length]
  rfl

/-- Evaluation of `decode` on the all-zero full-size input. -/
theorem decode_zeroBinary : decode zeroBinary = zeroSOX := by decide

/-- Evaluation of `decode` on the full-size input whose last trailing byte is 1:
the result is the same all-zero container, the nonzero trailing byte is lost. -/
theorem decode_badInput : decode badInput = zeroSOX := by decide

/-- The all-zero record encodes to 148 zero bytes. -/
theorem encodeTroopInfo_zero : encodeTroopInfo zeroTroopInfo = List.replicate 148 0 := by decide

/-- Flattening `n` copies of an `m`-fold replicate gives an `n * m` replicate. -/
theorem flatten_replicate_replicate (n m : Nat) :
    (List.replicate n (List.replicate m (0 : Nat))).flatten = List.replicate (n * m) 0 := by
  induction n with
  | zero => simp
  | succ k ih =>
      rw [List.replicate_succ, List.flatten_cons, ih, Nat.succ_mul, ← List.replicate_add,
        Nat.add_comm]

/-- Closed form of the encoding of the all-zero container. -/
theorem encode_zeroSOX_eq :
    encode zeroSOX = [100, 0, 0, 0, 43, 0, 0, 0] ++ List.replicate 6428 0 := by
  have h1 : int32ToBytes 100 = [100, 0, 0, 0] := by decide
  have h2 : int32ToBytes 43 = [43, 0, 0, 0] := by decide
  have h3 : List.replicate 6364 (0 : Nat) ++ List.replicate 64 0 = List.replicate 6428 0 := by
    rw [← List.replicate_add]
  have e1 : 43 * 148 = 6364 := by norm_num
  have e2 : min 64 64 = 64 := by norm_num
  have e3 : 64 - 64 = 0 := by norm_num
  rw [show encode zeroSOX = int32ToBytes 100 ++ (int32ToBytes 43 ++
    ((List.map encodeTroopInfo (List.replicate 43 zeroTroopInfo)).flatten ++
      ((List.replicate 64 (0 : Nat)).take 64 ++
        List.replicate (64 - (List.replicate 64 (0 : Nat)).length) 0))) from rfl]
  rw [h1, h2, List.map_replicate, encodeTroopInfo_zero, flatten_replicate_replicate,
    List.take_replicate, List.length_replicate, e1, e2, e3, List.replicate_zero,
    List.append_nil, h3]
  rfl

/-- The trailing 64 bytes of `badInput` (everything after the 43 records). -/
theorem badInput_drop : badInput.drop 6372 = List.replicate 63 0 ++ [1] := by
  have e1 : 6372 - 8 = 6364 := by norm_num
  have e2 : 6364 - 6427 = 0 := by norm_num
  have e3 : 6427 - 6364 = 63 := by norm_num
  rw [badInput, List.drop_append_eq_append_drop,
    List.drop_eq_nil_of_le (by norm_num : ([100, 0, 0, 0, 43, 0, 0, 0] : List Nat).length ≤ 6372),
    List.nil_append, List.length_cons, List.length_cons, List.length_cons, List.length_cons,
    List.length_cons, List.length_cons, List.length_cons, List.length_cons, List.length_nil]
  rw [show (6372 - (0 + 1 + 1 + 1 + 1 + 1 + 1 + 1 + 1) : Nat) = 6364 by norm_num]
  rw [List.drop_append_eq_append_drop, List.drop_replicate, List.length_replicate, e2, e3,
    List.drop_zero]

/-- The trailing 64 bytes of the re-encoded container are all zero. -/
theorem encode_zeroSOX_drop : (encode zeroSOX).drop 6372 = List.replicate 64 0 := by
  have e2 : 6428 - 6364 = 64 := by norm_num
  rw [encode_zeroSOX_eq, List.drop_append_eq_append_drop,
    List.drop_eq_nil_of_le (by norm_num : ([100, 0, 0, 0, 43, 0, 0, 0] : List Nat).length ≤ 6372),
    List.nil_append, List.length_cons, List.length_cons, List.length_cons, List.length_cons,
    List.length_cons, List.length_cons, List.length_cons, List.length_cons, List.length_nil]
  rw [show (6372 - (0 + 1 + 1 + 1 + 1 + 1 + 1 + 1 + 1) : Nat) = 6364 by norm_num]
  rw [List.drop_replicate, e2]

/-!
The claim theorems.
-/

/-- C1 (code_bug): the byte-for-byte round-trip law fails. `badInput` is a
full-size (6436-byte) input with a valid header whose final trailing-blob
byte is 1; decoding succeeds, but re-encoding returns the input with its
trailing 64 bytes zeroed (the read-the-rest loop hands `binary.Read` a nil
byte slice, so the trailing blob is never captured), hence
`Encode(Decode(b))` is not `b`. -/
theorem roundTrip_fails_on_trailing_blob :
    encode (decode badInput) = [100, 0, 0, 0, 43, 0, 0, 0] ++ List.replicate 6428 0 ∧
      encode (decode badInput) ≠ badInput := by
  constructor
  · rw [decode_badInput]
    exact encode_zeroSOX_eq
  · rw [decode_badInput]
    intro he
    have h2 := congrArg (List.drop 6372) he
    rw [encode_zeroSOX_drop, badInput_drop] at h2
    exact absurd h2 (by decide)

/-- C2 (code_bug): the 64-byte trailing blob is not copied verbatim. For
`badInput`, whose trailing 64 bytes are 63 zeros then a 1, the decoded
container's `TheEnd` is all zeros: `binary.Read` into the nil `chars` slice
decodes zero bytes, so the accumulator stays empty and `copy` fills nothing. -/
theorem theEnd_not_preserved :
    (decode badInput).TheEnd = List.replicate 64 0 ∧
      badInput.drop 6372 ≠ List.replicate 64 0 := by
  constructor
  · rw [decode_badInput]
    rfl
  · rw [badInput_drop]
    decide

/-- C3 (counterexample): an input of only the 8 valid header bytes — far
shorter than the fixed total size 6436 — does not fail: it decodes to the
full all-zero container, `readBytes` tolerating `io.EOF` with zero-filled
buffers for every missing field. -/
theorem truncated_header_only_decodes :
    header8.length < 6436 ∧ decode header8 = zeroSOX := by
  constructor
  · decide
  · decide

/-- C3 (amended): `decode` does not detect truncation and has no failure
path at all (the invalid-header fatal never fires and `io.EOF` is
tolerated): an input shorter than the fixed total size still yields a
container, whose version and count are the little-endian int32s of the
zero-padded first 8 bytes and whose trailing array is always the 64 zero
bytes; missing field bytes read as zero. -/
theorem decode_truncation_not_rejected (b : List Nat) (_h : b.length < 6436) :
    (decode b).Version = int32FromBytes (b.take 4) ∧
      (decode b).Count = int32FromBytes ((b.drop 4).take 4) ∧
      (decode b).TheEnd = List.replicate 64 0 :=
  ⟨decode_Version b, decode_Count b, decode_TheEnd b⟩

/-- Witness for C3 (amended) at the concrete truncated input `header8`. -/
theorem decode_truncation_not_rejected_witness :
    (decode header8).Version = int32FromBytes (header8.take 4) ∧
      (decode header8).Count = int32FromBytes ((header8.drop 4).take 4) ∧
      (decode header8).TheEnd = List.replicate 64 0 :=
  decode_truncation_not_rejected header8 (by decide)

/-- C4 (code_bug): in write-binary-from-text mode the run does not abort
when reading or parsing the text file fails: the `log.Fatal().Err(err)`
after `binaryData` lacks `Msg`/`Send` and is a no-op, so `ioutil.WriteFile`
still runs and overwrites the SOX file with the empty partial buffer
`binaryData` returned — both for a failed file read and for a document the
unmarshal step rejects. -/
theorem write_mode_overwrites_on_error :
    (∀ e : String, writeMode (Except.error e) = ([] : List Nat)) ∧
      writeMode (Except.ok badLengthDoc) = ([] : List Nat) := by
  constructor
  · intro e
    rfl
  · rfl

/-- C5 (code_bug): decoding does not fail on an invalid header. For the
full-size all-zero input the first little-endian int32 is 0, not 100, so
`validSOX` is false — yet the `log.Fatal().Err(errInvalidSOX)` chain,
lacking `Msg`/`Send`, neither logs nor exits, and `main` continues to
produce a complete container carrying the invalid header values. -/
theorem decode_ignores_header_check :
    validSOX (int32FromBytes (invalidBinary.take 4))
        (int32FromBytes ((invalidBinary.drop 4).take 4)) = false ∧
      decode invalidBinary =
        { Version := 0
          Count := 0
          TroopInfos := List.replicate 43 zeroTroopInfo
          TheEnd := List.replicate 64 0 } := by
  constructor
  · decide
  · decide

/-- C6 (counterexample): the record layout does not consist of 39 leading
scalar fields with exactly two signed integers: it has 30 leading scalars,
five of which are signed integers. -/
theorem record_layout_claim_false :
    ¬(troopInfoScalarLayout.length = 39 ∧
      troopInfoScalarLayout.countP (fun p => p.2 == FieldType.i32) = 2) := by
  decide

/-- C6 (amended): each record's layout is 30 leading scalar 4-byte fields of
which exactly five are signed integers and 25 are floats, followed by 3
`levelUpData` sub-records (a signed integer and a float each), followed by
one trailing float — 37 four-byte fields, 148 bytes, matching the encoder. -/
theorem record_layout_amended :
    troopInfoScalarLayout.length = 30 ∧
      troopInfoScalarLayout.countP (fun p => p.2 == FieldType.i32) = 5 ∧
      troopInfoScalarLayout.countP (fun p => p.2 == FieldType.f32) = 25 ∧
      levelUpDataLayout.countP (fun p => p.2 == FieldType.i32) = 1 ∧
      levelUpDataLayout.length = 2 ∧
      troopInfoLayout.length = 37 ∧
      ∀ ti : troopInfo, (encodeTroopInfo ti).length = 4 * troopInfoLayout.length := by
  refine ⟨by decide, by decide, by decide, by decide, by decide, by decide, fun ti => ?_⟩
  simp [encodeTroopInfo, encodeLevelUpData, int32ToBytes, float32ToBytes, uint32ToBytes,
    troopInfoLayout, troopInfoScalarLayout, levelUpDataLayout]

/-- Any record contributes exactly 37 labeled scalar values to the text. -/
theorem troopInfoLabeledValues_length (ti : troopInfo) :
    (troopInfoLabeledValues ti).length = 37 := rfl

/-- The labels of any record's labeled values are the fixed label sequence. -/
theorem troopInfoLabeledValues_labels (ti : troopInfo) :
    (troopInfoLabeledValues ti).map Prod.fst = troopInfoLabels := rfl

/-- Length of the flattened labeled values of a record list. -/
theorem flatten_labeled_length (l : List troopInfo) :
    ((l.map troopInfoLabeledValues).flatten).length = l.length * 37 := by
  induction l with
  | nil => rfl
  | cons t ts ih =>
      simp only [List.map_cons, List.flatten_cons, List.length_append, ih,
        troopInfoLabeledValues_length, List.length_cons]
      ring

/-- Labels of the flattened labeled values of a record list. -/
theorem flatten_labeled_labels (l : List troopInfo) :
    ((l.map troopInfoLabeledValues).flatten).map Prod.fst =
      (List.replicate l.length troopInfoLabels).flatten := by
  induction l with
  | nil => rfl
  | cons t ts ih =>
      simp only [List.map_cons, List.flatten_cons, List.map_append, ih,
        troopInfoLabeledValues_labels, List.length_cons, List.replicate_succ]

/-- C7 (counterexample): the text emitted for a decoded container does not
contain 43 x 39 record-field values: each record contributes 37
scalar-equivalent labeled values, so the record part has 43 x 37 = 1591
entries, not 1677. -/
theorem text_emission_count_claim_false :
    decode zeroBinary = zeroSOX ∧
      ((zeroSOX.TroopInfos.map troopInfoLabeledValues).flatten).length ≠ 43 * 39 := by
  constructor
  · exact decode_zeroBinary
  · rw [flatten_labeled_length]
    decide

/-- C7 (amended): for every decoded container, the emitted text carries a
labeled value for all 43 x 37 scalar-equivalent record fields (each
`levelUpData` counted as 2 fields x 3 entries), under the fixed per-record
label sequence, plus the two header labels. -/
theorem text_emission_completeness (b : List Nat) (c : troopInfoSOX)
    (h : decode b = c) :
    (toTextLabeledValues c).map Prod.fst =
        "version" :: "count" :: (List.replicate 43 troopInfoLabels).flatten ∧
      (toTextLabeledValues c).length = 2 + 43 * 37 := by
  have h43 : c.TroopInfos.length = 43 := h ▸ decode_records_count b
  constructor
  · rw [show (toTextLabeledValues c).map Prod.fst =
        "version" :: "count" ::
          ((c.TroopInfos.map troopInfoLabeledValues).flatten).map Prod.fst from rfl]
    rw [flatten_labeled_labels, h43]
  · rw [show (toTextLabeledValues c).length =
        ((c.TroopInfos.map troopInfoLabeledValues).flatten).length + 1 + 1 from rfl]
    rw [flatten_labeled_length, h43]

/-- Witness for C7 (amended) at the concrete all-zero binary. -/
theorem text_emission_completeness_witness :
    (toTextLabeledValues zeroSOX).length = 2 + 43 * 37 :=
  (text_emission_completeness zeroBinary zeroSOX decode_zeroBinary).2

/-- C8 (confirmed): the container with version 100, count 43, all-zero
records and zero trailing blob encodes to exactly 6436 bytes: the header
bytes `64 00 00 00 2B 00 00 00` followed entirely by zeros. -/
theorem encode_zero_container :
    encode zeroSOX = [0x64, 0, 0, 0, 0x2B, 0, 0, 0] ++ List.replicate 6428 0 ∧
      (encode zeroSOX).length = 6436 := by
  constructor
  · exact encode_zeroSOX_eq
  · rw [encode_zeroSOX_eq, List.length_append, List.length_replicate]
    rfl

/-- Mapping a function that fixes every member of a list is the identity on
that list. -/
theorem map_id_of_mem {α : Type} (f : α → α) :
    ∀ l : List α, (∀ x ∈ l, f x = x) → l.map f = l
  | [], _ => rfl
  | a :: t, h => by
      rw [List.map_cons, h a (List.mem_cons_self a t),
        map_id_of_mem f t (fun x hx => h x (List.mem_cons_of_mem a hx))]

/-- The yaml text layer fixes any record without NaN float patterns. -/
theorem yamlTroopInfo_id (ti : troopInfo) (h : troopInfoNoNaN ti) :
    yamlTroopInfo ti = ti := by
  obtain ⟨h1, h2, h3, h4, h5, h6, h7, h8, h9, h10, h11, h12, h13, h14, h15, h16, h17, h18,
    h19, h20, h21, h22, h23, h24, h25, h26, h27, h28, h29⟩ := h
  simp [yamlTroopInfo, yamlLevelUpData, yamlFloat32, h1, h2, h3, h4, h5, h6, h7, h8, h9,
    h10, h11, h12, h13, h14, h15, h16, h17, h18, h19, h20, h21, h22, h23, h24, h25, h26,
    h27, h28, h29]

/-- C9 (counterexample): the text round-trip is not the identity on every
zero-blob container. `nanSOX` has an all-zero trailing blob but one float
scalar holding the NaN pattern 0x7FC00001; yaml emits it as `.nan` and the
re-parsed container carries the canonical NaN 0x7FC00000 instead, so a
scalar field differs. -/
theorem text_roundtrip_claim_false :
    nanSOX.TheEnd = List.replicate 64 0 ∧
      (fromText (toText nanSOX)).toOption ≠ some nanSOX ∧
      (fromText (toText nanSOX)).toOption =
        some
          { Version := 100
            Count := 43
            TroopInfos :=
              ({ nanTroopInfo with MoveSpeed := canonicalNaN32 } : troopInfo) ::
                List.replicate 42 zeroTroopInfo
            TheEnd := List.replicate 64 0 } := by
  refine ⟨rfl, ?_, ?_⟩
  · decide
  · decide

/-- C9 (amended): text round-trip. For a container with its 43 records, an
all-zero trailing blob, and no NaN bit pattern in any float field,
unmarshalling the marshalled text reproduces the container exactly:
version, count and every scalar field of every record (including all
`levelUpData` fields) are identical. NaN-pattern floats are the only
exception: they come back as the canonical quiet NaN. -/
theorem fromText_toText_roundtrip (c : troopInfoSOX)
    (h43 : c.TroopInfos.length = 43) (hend : c.TheEnd = List.replicate 64 0)
    (hnan : ∀ ti ∈ c.TroopInfos, troopInfoNoNaN ti) :
    fromText (toText c) = Except.ok c := by
  cases c with
  | mk v cnt tis te =>
      simp only at h43 hend hnan
      have hmap : tis.map yamlTroopInfo = tis :=
        map_id_of_mem yamlTroopInfo tis (fun ti hti => yamlTroopInfo_id ti (hnan ti hti))
      simp [fromText, toText, hmap, h43, hend]

/-- Witness for C9 at the all-zero container. -/
theorem fromText_toText_roundtrip_witness :
    fromText (toText zeroSOX) = Except.ok zeroSOX :=
  fromText_toText_roundtrip zeroSOX (by simp [zeroSOX]) rfl (by decide)

/-- Any little-endian int32 write is exactly 4 bytes on the front. -/
theorem take4_int32_append (i : Int) (rest : List Nat) :
    (int32ToBytes i ++ rest).take 4 = int32ToBytes i := rfl

/-- Dropping a little-endian int32 write exposes the tail. -/
theorem drop4_int32_append (i : Int) (rest : List Nat) :
    (int32ToBytes i ++ rest).drop 4 = rest := rfl

/-- C10 (confirmed): encode-from-text performs no header validation: for
every document the unmarshal step accepts, the first two little-endian
int32 values of the serialized output are exactly the version and count the
document supplied (zero when the key is absent) — `binaryData` never calls
`validSOX`, so headers the decoder's check would reject are emitted
unchanged. -/
theorem encode_from_text_no_header_validation (d : TextDoc) (sox : troopInfoSOX)
    (h : fromText d = Except.ok sox) :
    (encode sox).take 4 = int32ToBytes (d.version.getD 0) ∧
      ((encode sox).drop 4).take 4 = int32ToBytes (d.count.getD 0) := by
  obtain ⟨hv, hc⟩ : sox.Version = d.version.getD 0 ∧ sox.Count = d.count.getD 0 := by
    cases hti : d.troopInfos with
    | none =>
        simp only [fromText, hti] at h
        injection h with h2
        rw [← h2]
        exact ⟨rfl, rfl⟩
    | some l =>
        simp only [fromText, hti] at h
        by_cases hl : l.length = 43
        · rw [if_pos hl] at h
          injection h with h2
          rw [← h2]
          exact ⟨rfl, rfl⟩
        · rw [if_neg hl] at h
          exact absurd h (by simp)
  constructor
  · rw [← hv]
    exact take4_int32_append sox.Version _
  · rw [← hc]
    rw [show (encode sox).drop 4 =
        int32ToBytes sox.Count ++
          ((sox.TroopInfos.map encodeTroopInfo).flatten ++
            (sox.TheEnd.take 64 ++ List.replicate (64 - sox.TheEnd.length) 0)) from rfl]
    exact take4_int32_append sox.Count _

/-- Witness for C10 at a document supplying the rejected version 5 and no
count or records. -/
theorem encode_from_text_no_header_validation_witness :
    (encode
        { Version := 5
          Count := 0
          TroopInfos := List.replicate 43 zeroTroopInfo
          TheEnd := List.replicate 64 0 }).take 4 = int32ToBytes 5 ∧
      ((encode
          { Version := 5
            Count := 0
            TroopInfos := List.replicate 43 zeroTroopInfo
            TheEnd := List.replicate 64 0 }).drop 4).take 4 = int32ToBytes 0 :=
  encode_from_text_no_header_validation versionFiveDoc _ rfl

end Kuftc
